import Mathlib

/-! Verification development for the credit-pm repository: a shallow
embedding of its financial-data pipeline (statement tables, normalizer,
ratio calculator, projection engine, analysis composer and section
version ledger) together with proofs of the specified properties.
Database constraints are taken from the SQL schema; the frontend
behaviour is taken from the React components; backend algorithms absent
from the available sources are modelled from the specification, as
marked on each such definition.

The file is organised as definitions first, then theorems. -/

namespace CreditPM

/-! ## Definitions: frontend section editor (simple-section-editor.tsx) -/

/-- JavaScript truthiness of a nullable string (the frontend's `!!s`):
`null` and the empty string are falsy, every other string is truthy. -/
def truthy : Option String → Bool
  | none => false
  | some s => !(s == "")

/-- A PM section row as in the `pm_sections` table and the frontend
`PMSection` interface: AI content and user content (both nullable) and a
version counter. -/
structure PMSection where
  ai_content : Option String
  user_content : Option String
  version : Nat
deriving DecidableEq

/-- `hasAiContent` in `simple-section-editor.tsx`: `!!section.ai_content`. -/
def hasAiContent (s : PMSection) : Bool := truthy s.ai_content

/-- `hasUserContent` in `simple-section-editor.tsx`: `!!section.user_content`. -/
def hasUserContent (s : PMSection) : Bool := truthy s.user_content

/-- The editor renders the "Modified" badge exactly when `hasUserContent`
holds (`simple-section-editor.tsx`, and identically `section-editor.tsx`). -/
def showsModifiedBadge (s : PMSection) : Bool := hasUserContent s

/-- The editor renders the "AI Generated" badge exactly when
`hasAiContent && !hasUserContent` holds. -/
def showsAiGeneratedBadge (s : PMSection) : Bool :=
  hasAiContent s && !hasUserContent s

/-- A nullable string field is present when it holds a non-empty string. -/
def presentStr (o : Option String) : Prop := ∃ s, o = some s ∧ s ≠ ""

/-- A section whose user content equals its AI content, both non-empty. -/
def sectionUserEqAi : PMSection :=
  { ai_content := some "text", user_content := some "text", version := 1 }

/-! ## Definitions: section version ledger (pm_sections + audit_log)

The `pm_sections` table stores `version INTEGER DEFAULT 1` and the
`audit_log` table records action, prompt and ai_response per write; the
backend endpoints that perform the writes are not among the available
sources, so the write operations are modelled from the spec. -/

/-- An `audit_log` row (the columns relevant to the ledger properties). -/
structure AuditEntry where
  action : String
  prompt : Option String
  ai_response : Option String
deriving DecidableEq

/-- A content-affecting write to a section: AI generation, a user edit,
or a revert-to-AI. -/
inductive LedgerWrite
  | generate (prompt response : String)
  | update (content : String)
  | revert
deriving DecidableEq

/-- The ledger state for one (case, section_type): the section row plus
its append-only audit log. -/
structure LedgerState where
  sec : PMSection
  log : List AuditEntry
deriving DecidableEq

/-- Modelled from the spec: the backend write endpoints for sections are
not among the available sources.  Per spec 4.5, every content-affecting
transition increments `version` and appends one immutable audit entry;
generation replaces `ai_content` (capturing prompt/response), a user
update sets `user_content`, and revert sets `user_content` to the
then-current `ai_content` and still counts as a write. -/
def applyWrite (st : LedgerState) (w : LedgerWrite) : LedgerState :=
  match w with
  | .generate p r =>
      { sec := { st.sec with ai_content := some r, version := st.sec.version + 1 },
        log := st.log ++ [⟨"generate", some p, some r⟩] }
  | .update c =>
      { sec := { st.sec with user_content := some c, version := st.sec.version + 1 },
        log := st.log ++ [⟨"update", none, none⟩] }
  | .revert =>
      { sec := { st.sec with user_content := st.sec.ai_content, version := st.sec.version + 1 },
        log := st.log ++ [⟨"revert", none, none⟩] }

/-- A sequence of content-affecting writes applied in order. -/
def applyWrites (st : LedgerState) (ws : List LedgerWrite) : LedgerState :=
  ws.foldl applyWrite st

/-! ## Definitions: financial statements (schema + statements editor)

Field set from the `financial_statements` table and the editor's
`FinancialStatement` interface; amounts are exact decimals, embedded as
rationals. -/

/-- A financial statement record: every numeric field optional, as in the
editor interface and the nullable SQL columns. -/
structure FinancialStatement where
  year : Int
  period_start : String := ""
  period_end : String := ""
  revenue : Option ℚ := none
  cost_of_goods_sold : Option ℚ := none
  gross_profit : Option ℚ := none
  operating_expenses : Option ℚ := none
  ebitda : Option ℚ := none
  depreciation : Option ℚ := none
  ebit : Option ℚ := none
  financial_income : Option ℚ := none
  financial_expenses : Option ℚ := none
  profit_before_tax : Option ℚ := none
  tax_expense : Option ℚ := none
  net_profit : Option ℚ := none
  current_assets : Option ℚ := none
  fixed_assets : Option ℚ := none
  total_assets : Option ℚ := none
  current_liabilities : Option ℚ := none
  long_term_liabilities : Option ℚ := none
  total_liabilities : Option ℚ := none
  equity : Option ℚ := none
  operating_cash_flow : Option ℚ := none
  investing_cash_flow : Option ℚ := none
  financing_cash_flow : Option ℚ := none
  net_cash_flow : Option ℚ := none
  cash_beginning : Option ℚ := none
  cash_ending : Option ℚ := none
  employees : Option Nat := none
  currency : String := "SEK"
  is_consolidated : Bool := false
  source : String := "manual"
deriving DecidableEq

/-- `emptyStatement` in the statements editor: a fresh record for a year
with currency SEK, unconsolidated, source manual. -/
def emptyStatement (y : Int) : FinancialStatement :=
  { year := y,
    period_start := toString y ++ "-01-01",
    period_end := toString y ++ "-12-31" }

/-- `handleSave` in the statements editor (`FinancialStatementsEditor`):
iterates over the year statements in order, issuing one POST per
statement, and throws at the first non-ok response, leaving the earlier
POSTs already applied.  `ok` abstracts the per-statement server
response; the result is the list of statements persisted before the
loop stopped, paired with the statement whose save failed, if any. -/
def saveStatements (ok : FinancialStatement → Bool) :
    List FinancialStatement → List FinancialStatement × Option FinancialStatement
  | [] => ([], none)
  | s :: rest =>
      if ok s then
        let r := saveStatements ok rest
        (s :: r.1, r.2)
      else ([], some s)

/-- The concrete server response used in the witness runs: the save for
year 2021 succeeds and every other year fails. -/
def okOnly2021 (s : FinancialStatement) : Bool := s.year == 2021

/-! ## Definitions: per-(company, year) tables

`financial_statements` and `financial_projections` both declare
`UNIQUE(company_id, year)`; a table is a list of rows keyed by that
pair. -/

/-- The (company_id, year) key shared by the statements and projections
tables. -/
structure TableKey where
  company_id : Nat
  year : Int
deriving DecidableEq

/-- The uniqueness constraint `UNIQUE(company_id, year)`: no two rows of
the table share a key. -/
def uniquePerCompanyYear {α : Type} (rows : List (TableKey × α)) : Prop :=
  (rows.map Prod.fst).Nodup

/-- Modelled from the spec: the backend submission endpoints are not
among the available sources.  Submitting a row whose (company, year) key
already exists merges into the existing canonical row in place (spec
4.1 conflict resolution, abstracted by `merge`); a fresh key appends a
new row, matching the SQL `UNIQUE(company_id, year)` constraint. -/
def upsertRow {α : Type} (merge : α → α → α) :
    List (TableKey × α) → TableKey → α → List (TableKey × α)
  | [], k, v => [(k, v)]
  | (k0, v0) :: rest, k, v =>
      if k0 = k then (k0, merge v0 v) :: rest
      else (k0, v0) :: upsertRow merge rest k v

/-- A plain SQL INSERT under the UNIQUE constraint: appends the row when
the key is fresh and is rejected (returns `none`) on a duplicate key. -/
def insertRow {α : Type} (rows : List (TableKey × α)) (k : TableKey) (v : α) :
    Option (List (TableKey × α)) :=
  if k ∈ rows.map Prod.fst then none else some (rows ++ [(k, v)])

/-! ## Definitions: statement normalizer (merge and derivation)

The backend normalizer is not among the available sources; its conflict
resolution and derivation rules are modelled from spec 4.1. -/

/-- The statement sources, with the precedence order of spec 4.1. -/
inductive StmtSource
  | manual
  | pdf_extracted
  | scraped
deriving DecidableEq

/-- Modelled from the spec: source precedence manual > pdf_extracted >
scraped (spec 4.1). -/
def sourceRank : StmtSource → Nat
  | .manual => 3
  | .pdf_extracted => 2
  | .scraped => 1

/-- The canonical numeric fields of a statement, for the field-level
merge. -/
inductive StmtField
  | revenue | cost_of_goods_sold | gross_profit | operating_expenses
  | ebitda | depreciation | ebit | financial_income | financial_expenses
  | profit_before_tax | tax_expense | net_profit
  | current_assets | fixed_assets | total_assets
  | current_liabilities | long_term_liabilities | total_liabilities | equity
  | operating_cash_flow | investing_cash_flow | financing_cash_flow
  | net_cash_flow | cash_beginning | cash_ending
deriving DecidableEq

/-- Every canonical numeric field, enumerated. -/
def allStmtFields : List StmtField :=
  [.revenue, .cost_of_goods_sold, .gross_profit, .operating_expenses,
   .ebitda, .depreciation, .ebit, .financial_income, .financial_expenses,
   .profit_before_tax, .tax_expense, .net_profit,
   .current_assets, .fixed_assets, .total_assets,
   .current_liabilities, .long_term_liabilities, .total_liabilities, .equity,
   .operating_cash_flow, .investing_cash_flow, .financing_cash_flow,
   .net_cash_flow, .cash_beginning, .cash_ending]

/-- The canonical per-(company, year) statement with per-field
provenance: each field carries its value and the source that set it. -/
def CanonicalFields : Type := StmtField → Option (ℚ × StmtSource)

/-- An incoming raw record: its source and a partial set of canonical
field values. -/
structure RawRecord where
  src : StmtSource
  fields : StmtField → Option ℚ

/-- Modelled from the spec: field-level conflict resolution (spec 4.1).
A field absent from the incoming record keeps its existing value; an
incoming field value wins unless the existing value was set by a
strictly higher-precedence source; a re-submission from the same source
replaces that source's prior value. -/
def mergeField (src : StmtSource) (old : Option (ℚ × StmtSource))
    (incoming : Option ℚ) : Option (ℚ × StmtSource) :=
  match incoming with
  | none => old
  | some v =>
      match old with
      | none => some (v, src)
      | some (w, s0) =>
          if sourceRank src < sourceRank s0 then some (w, s0) else some (v, src)

/-- Modelled from the spec: the canonical record after merging an
incoming record, field by field. -/
def mergeStatement (can : CanonicalFields) (r : RawRecord) : CanonicalFields :=
  fun f => mergeField r.src (can f) (r.fields f)

/-- Modelled from the spec: the overwrite log of a merge — one entry per
field whose existing value was replaced, recording the field, the
previous value and the previous source (spec 4.1: every overwrite is
recorded rather than silently dropped). -/
def overwriteLog (can : CanonicalFields) (r : RawRecord) :
    List (StmtField × ℚ × StmtSource) :=
  allStmtFields.filterMap (fun f =>
    match r.fields f, can f with
    | some _, some (w, s0) =>
        if sourceRank r.src < sourceRank s0 then none else some (f, w, s0)
    | _, _ => none)

/-- Derive a missing value from two parts when both are present; never
overwrite a supplied value. -/
def deriveFromParts (x a b : Option ℚ) (op : ℚ → ℚ → ℚ) : Option ℚ :=
  match x with
  | some t => some t
  | none =>
      match a, b with
      | some p, some q => some (op p q)
      | _, _ => none

/-- Modelled from the spec: the normalizer's derivation pass (spec 4.1):
`gross_profit = revenue - cost_of_goods_sold`, `ebit = ebitda -
depreciation`, `net_cash_flow = operating + investing + financing cash
flow`, `total_assets = current_assets + fixed_assets` and the symmetric
liability total, each applied only when the target field is absent. -/
def fillDerived (s : FinancialStatement) : FinancialStatement :=
  { s with
    gross_profit :=
      deriveFromParts s.gross_profit s.revenue s.cost_of_goods_sold (fun a b => a - b),
    ebit := deriveFromParts s.ebit s.ebitda s.depreciation (fun a b => a - b),
    total_assets :=
      deriveFromParts s.total_assets s.current_assets s.fixed_assets (fun a b => a + b),
    total_liabilities :=
      deriveFromParts s.total_liabilities s.current_liabilities
        s.long_term_liabilities (fun a b => a + b),
    net_cash_flow :=
      match s.net_cash_flow with
      | some t => some t
      | none =>
          match s.operating_cash_flow, s.investing_cash_flow, s.financing_cash_flow with
          | some a, some b, some c => some (a + b + c)
          | _, _, _ => none }

/-! ## Definitions: ratio calculator

The backend calculator is not among the available sources; it is
modelled from spec 4.2.  The undefined marker is `none`. -/

/-- Modelled from the spec: a ratio is defined only when both operands
are present and the denominator is non-zero; otherwise the explicit
undefined marker `none` (spec 4.2 numeric policy). -/
def safeDiv (num den : Option ℚ) : Option ℚ :=
  match num, den with
  | some n, some d => if d = 0 then none else some (n / d)
  | _, _ => none

/-- The per-year ratio set of spec 4.2. -/
structure RatioSet where
  gross_margin : Option ℚ
  ebitda_margin : Option ℚ
  net_margin : Option ℚ
  current_ratio : Option ℚ
  equity_ratio : Option ℚ
  debt_to_equity : Option ℚ
  roa : Option ℚ
  roe : Option ℚ
  revenue_growth : Option ℚ
deriving DecidableEq

/-- Modelled from the spec: the ratio calculator for one year, given the
previous year's statement when available (spec 4.2).  ROE additionally
treats non-positive equity as invalid. -/
def computeRatios (prev : Option FinancialStatement) (s : FinancialStatement) :
    RatioSet :=
  { gross_margin := safeDiv s.gross_profit s.revenue,
    ebitda_margin := safeDiv s.ebitda s.revenue,
    net_margin := safeDiv s.net_profit s.revenue,
    current_ratio := safeDiv s.current_assets s.current_liabilities,
    equity_ratio := safeDiv s.equity s.total_assets,
    debt_to_equity := safeDiv s.total_liabilities s.equity,
    roa := safeDiv s.net_profit s.total_assets,
    roe :=
      match s.net_profit, s.equity with
      | some n, some e => if e ≤ 0 then none else some (n / e)
      | _, _ => none,
    revenue_growth :=
      match prev with
      | none => none
      | some p =>
          match s.revenue, p.revenue with
          | some r, some r0 => if r0 = 0 then none else some (r / r0 - 1)
          | _, _ => none }

/-! ## Definitions: projection engine

The backend projection engine is not among the available sources; it is
modelled from spec 4.3.  Amounts and assumptions are exact rationals;
the geometric-mean growth factor is a real number. -/

/-- The engine's configured values: the flat default growth used when
fewer than two historical years exist, and the fallback operating-cash-
flow fraction of EBITDA. -/
structure ProjectionConfig where
  flat_default_growth : ℚ
  ocf_fallback_fraction : ℚ
deriving DecidableEq

/-- Optional per-field assumption overrides (spec 4.3): an explicit
revenue growth rate and explicit target margins. -/
structure AssumptionOverrides where
  revenue_growth : Option ℚ := none
  ebitda_margin : Option ℚ := none
  net_margin : Option ℚ := none
deriving DecidableEq

/-- Projection confidence levels. -/
inductive Confidence
  | low
  | medium
  | high
deriving DecidableEq

/-- The non-null revenues of an ordered statement history (spec 4.2:
trend statistics use only years with non-null revenue). -/
def revenueSeries (hist : List FinancialStatement) : List ℚ :=
  hist.filterMap (fun s => s.revenue)

/-- Year-over-year revenue growth factors of a revenue series. -/
def yoyGrowthFactors (rs : List ℚ) : List ℚ :=
  (rs.zip rs.tail).map (fun p => p.2 / p.1)

/-- Modelled from the spec: the geometric mean of the year-over-year
revenue growth factors (spec 4.3 step 1). -/
noncomputable def geomMeanFactor (rs : List ℚ) : ℝ :=
  (((yoyGrowthFactors rs).prod : ℚ) : ℝ) ^
    ((1 : ℝ) / ((yoyGrowthFactors rs).length : ℝ))

/-- Modelled from the spec: the base growth factor (1 + growth): an
explicit override growth takes precedence; otherwise the geometric mean
when at least two historical revenue years exist; otherwise the
configured flat default (spec 4.3 steps 1-2). -/
noncomputable def growthFactor (cfg : ProjectionConfig)
    (hist : List FinancialStatement) (ov : AssumptionOverrides) : ℝ :=
  match ov.revenue_growth with
  | some g => 1 + (g : ℝ)
  | none =>
      if 2 ≤ (revenueSeries hist).length then geomMeanFactor (revenueSeries hist)
      else 1 + (cfg.flat_default_growth : ℝ)

/-- The last historical revenue, when any year has one. -/
def lastRevenue (hist : List FinancialStatement) : Option ℚ :=
  (revenueSeries hist).getLast?

/-- Modelled from the spec: projected revenue for horizon year k = last
historical revenue times the growth factor to the k-th power (spec 4.3
step 2). -/
noncomputable def projectedRevenue (cfg : ProjectionConfig)
    (hist : List FinancialStatement) (ov : AssumptionOverrides) (k : ℕ) : ℝ :=
  (((lastRevenue hist).getD 0 : ℚ) : ℝ) * growthFactor cfg hist ov ^ k

/-- The latest historical margin of a field against revenue. -/
def latestMargin (field : FinancialStatement → Option ℚ)
    (hist : List FinancialStatement) : Option ℚ :=
  (hist.getLast?).bind (fun s => safeDiv (field s) s.revenue)

/-- The EBITDA margin held for every horizon year: an override target
margin when supplied, else the latest historical margin (spec 4.3
step 3). -/
def heldEbitdaMargin (hist : List FinancialStatement)
    (ov : AssumptionOverrides) : Option ℚ :=
  match ov.ebitda_margin with
  | some m => some m
  | none => latestMargin (fun s => s.ebitda) hist

/-- The net-profit margin held for every horizon year. -/
def heldNetMargin (hist : List FinancialStatement)
    (ov : AssumptionOverrides) : Option ℚ :=
  match ov.net_margin with
  | some m => some m
  | none => latestMargin (fun s => s.net_profit) hist

/-- Modelled from the spec: projected EBITDA = held margin times
projected revenue (spec 4.3 step 3). -/
noncomputable def projectedEbitda (cfg : ProjectionConfig)
    (hist : List FinancialStatement) (ov : AssumptionOverrides) (k : ℕ) :
    Option ℝ :=
  (heldEbitdaMargin hist ov).map
    (fun m => (m : ℝ) * projectedRevenue cfg hist ov k)

/-- Modelled from the spec: projected net profit = held net margin times
projected revenue (spec 4.3 step 3). -/
noncomputable def projectedNetProfit (cfg : ProjectionConfig)
    (hist : List FinancialStatement) (ov : AssumptionOverrides) (k : ℕ) :
    Option ℝ :=
  (heldNetMargin hist ov).map
    (fun m => (m : ℝ) * projectedRevenue cfg hist ov k)

/-- Modelled from the spec: balance-sheet totals scale with projected
revenue growth (spec 4.3 step 4). -/
noncomputable def projectedAssets (cfg : ProjectionConfig)
    (hist : List FinancialStatement) (ov : AssumptionOverrides) (k : ℕ) :
    Option ℝ :=
  ((hist.getLast?).bind (fun s => s.total_assets)).map
    (fun a => (a : ℝ) * growthFactor cfg hist ov ^ k)

/-- Modelled from the spec: equity rolls forward as prior equity plus
projected net profit, a retained-earnings approximation (spec 4.3
step 4). -/
noncomputable def projectedEquity (cfg : ProjectionConfig)
    (hist : List FinancialStatement) (ov : AssumptionOverrides) :
    ℕ → Option ℝ
  | 0 => ((hist.getLast?).bind (fun s => s.equity)).map (fun e => (e : ℝ))
  | k + 1 =>
      match projectedEquity cfg hist ov k,
            projectedNetProfit cfg hist ov (k + 1) with
      | some e, some np => some (e + np)
      | _, _ => none

/-- The historical operating-cash-flow-to-EBITDA ratio, when derivable
from the latest year. -/
def ocfToEbitdaRatio (hist : List FinancialStatement) : Option ℚ :=
  (hist.getLast?).bind (fun s => safeDiv s.operating_cash_flow s.ebitda)

/-- Modelled from the spec: projected operating cash flow = historical
OCF-to-EBITDA ratio (when derivable) times projected EBITDA, else the
configured fallback fraction of projected EBITDA (spec 4.3 step 5). -/
noncomputable def projectedOcf (cfg : ProjectionConfig)
    (hist : List FinancialStatement) (ov : AssumptionOverrides) (k : ℕ) :
    Option ℝ :=
  match projectedEbitda cfg hist ov k with
  | none => none
  | some eb =>
      match ocfToEbitdaRatio hist with
      | some r => some ((r : ℝ) * eb)
      | none => some ((cfg.ocf_fallback_fraction : ℝ) * eb)

/-- Two consecutive historical loss years (negative net profit). -/
def hasTwoConsecutiveLosses (hist : List FinancialStatement) : Bool :=
  (hist.zip hist.tail).any (fun p =>
    (match p.1.net_profit with
     | some x => decide (x < 0)
     | none => false) &&
    (match p.2.net_profit with
     | some x => decide (x < 0)
     | none => false))

/-- Growth factors within a small band around their mean. -/
def lowVarianceGrowth (gs : List ℚ) : Bool :=
  match gs with
  | [] => true
  | _ =>
      let m := gs.sum / (gs.length : ℚ)
      gs.all (fun g => decide (|g - m| ≤ 5 / 100))

/-- Modelled from the spec: confidence is low with fewer than 2
historical years or 2+ consecutive loss years, high with at least 4
revenue years of positive, low-variance growth, else medium (spec
4.3). -/
def confidenceLevel (hist : List FinancialStatement) : Confidence :=
  if hist.length < 2 || hasTwoConsecutiveLosses hist then .low
  else if 4 ≤ (revenueSeries hist).length
          && (yoyGrowthFactors (revenueSeries hist)).all (fun g => decide (1 < g))
          && lowVarianceGrowth (yoyGrowthFactors (revenueSeries hist)) then .high
  else .medium

/-- A projection row, as in the `financial_projections` table: projected
aggregates plus the exact assumption values used. -/
structure FinancialProjection where
  year : Int
  revenue_growth : ℝ
  projected_revenue : ℝ
  projected_ebitda : Option ℝ
  projected_net_profit : Option ℝ
  projected_assets : Option ℝ
  projected_equity : Option ℝ
  projected_operating_cash_flow : Option ℝ
  confidence_level : Confidence
  methodology : String

/-- Modelled from the spec: the projection row for horizon year k. -/
noncomputable def projectionForYear (cfg : ProjectionConfig)
    (hist : List FinancialStatement) (ov : AssumptionOverrides) (k : ℕ) :
    FinancialProjection :=
  { year := ((hist.getLast?).map (fun s => s.year)).getD 0 + (k : Int),
    revenue_growth := growthFactor cfg hist ov - 1,
    projected_revenue := projectedRevenue cfg hist ov k,
    projected_ebitda := projectedEbitda cfg hist ov k,
    projected_net_profit := projectedNetProfit cfg hist ov k,
    projected_assets := projectedAssets cfg hist ov k,
    projected_equity := projectedEquity cfg hist ov k,
    projected_operating_cash_flow := projectedOcf cfg hist ov k,
    confidence_level := confidenceLevel hist,
    methodology := "trend_analysis" }

/-- Modelled from the spec: the projection engine — ordered historical
statements, an integer horizon and optional overrides produce one
projection per horizon year, or `InsufficientHistoryError` when no
history is supplied (spec 4.3 contract).  The function is pure: its
output depends on nothing but its arguments. -/
noncomputable def generateProjections (cfg : ProjectionConfig)
    (hist : List FinancialStatement) (horizon : ℕ) (ov : AssumptionOverrides) :
    Except String (List FinancialProjection) :=
  if hist.isEmpty then .error "InsufficientHistoryError"
  else .ok ((List.range horizon).map (fun i => projectionForYear cfg hist ov (i + 1)))

/-! ## Definitions: analysis composer

The backend composer is not among the available sources; its validation
and retry behaviour are modelled from spec 4.4. -/

/-- A structured narrative-generation response. -/
structure NarrativeResponse where
  summary : Option String := none
  overall_risk : Option String := none
  risk_factors : List String := []
  strengths : List String := []
  weaknesses : List String := []
  recommendations : List String := []
deriving DecidableEq

/-- A valid overall risk value. -/
def validRisk (r : String) : Bool := r == "low" || r == "medium" || r == "high"

/-- Modelled from the spec: response post-validation — non-empty
summary, overall risk in the low/medium/high set, non-empty
recommendations (spec 4.4). -/
def validResponse (r : NarrativeResponse) : Bool :=
  truthy r.summary &&
  (match r.overall_risk with
   | some x => validRisk x
   | none => false) &&
  !r.recommendations.isEmpty

/-- The persisted analysis record: the fields kept, the incomplete flag,
and how many generation attempts were made. -/
structure PersistedAnalysis where
  summary : Option String
  overall_risk : Option String
  recommendations : List String
  generation_incomplete : Bool
  attempts : Nat
deriving DecidableEq

/-- The individually valid fields of a response, persisted as-is; an
invalid field is dropped from the persisted record. -/
def keepValidFields (r : NarrativeResponse) (flag : Bool) (n : Nat) :
    PersistedAnalysis :=
  { summary := if truthy r.summary then r.summary else none,
    overall_risk :=
      match r.overall_risk with
      | some x => if validRisk x then some x else none
      | none => none,
    recommendations := r.recommendations,
    generation_incomplete := flag,
    attempts := n }

/-- Modelled from the spec: the composer calls the generator once; on an
invalid response it retries exactly once (with a stricter instruction,
which lives in the excluded generator collaborator); if the retry also
fails validation it persists whatever valid fields the retry produced
together with the `generation_incomplete` flag instead of discarding
the attempt (spec 4.4).  `r1` and `r2` are the first and second
responses. -/
def composeAnalysis (r1 r2 : NarrativeResponse) : PersistedAnalysis :=
  if validResponse r1 then keepValidFields r1 false 1
  else if validResponse r2 then keepValidFields r2 false 2
  else keepValidFields r2 true 2

/-! ## Definitions: concrete fixtures used by witnesses -/

/-- A one-line statement with a revenue and an EBITDA. -/
def scenarioStatement (y : Int) (rev eb : ℚ) : FinancialStatement :=
  { year := y, revenue := some rev, ebitda := some eb }

/-- The spec scenario history: revenue 80M (2021), 90M (2022), 100M
(2023), flat 10% EBITDA margins. -/
def scenarioHistory : List FinancialStatement :=
  [scenarioStatement 2021 80000000 8000000,
   scenarioStatement 2022 90000000 9000000,
   scenarioStatement 2023 100000000 10000000]

/-- No assumption overrides. -/
def noOverrides : AssumptionOverrides := {}

/-- A concrete engine configuration. -/
def defaultConfig : ProjectionConfig :=
  { flat_default_growth := 2 / 100, ocf_fallback_fraction := 8 / 10 }

/-- A canonical record whose revenue and equity were set by a scrape. -/
def exCanonical : CanonicalFields := fun f =>
  match f with
  | .revenue => some (100, .scraped)
  | .equity => some (50, .scraped)
  | _ => none

/-- A manual submission supplying only a revenue. -/
def exManualRecord : RawRecord :=
  { src := .manual,
    fields := fun f =>
      match f with
      | .revenue => some 120
      | _ => none }

/-- A statement with parts but no total assets. -/
def exPartsOnly : FinancialStatement :=
  { year := 2023, current_assets := some 60000000, fixed_assets := some 40000000 }

/-- A statement with an explicitly supplied total assets. -/
def exExplicitTotal : FinancialStatement :=
  { year := 2023, total_assets := some 7,
    current_assets := some 1, fixed_assets := some 2 }

/-- A statement with zero revenue and negative equity. -/
def exBadDenominators : FinancialStatement :=
  { year := 2023, revenue := some 0, gross_profit := some 1,
    equity := some (-5), net_profit := some 10 }

/-- A first narrative response missing its recommendations. -/
def exResponse1 : NarrativeResponse :=
  { summary := some "s", overall_risk := some "low" }

/-- A retry response with a valid summary but still no
recommendations. -/
def exResponse2 : NarrativeResponse :=
  { summary := some "t", overall_risk := some "bogus" }

/-! ## Theorems: ledger helpers -/

theorem truthy_iff_presentStr (o : Option String) :
    truthy o = true ↔ presentStr o := by
  cases o with
  | none => simp [truthy, presentStr]
  | some s =>
    simp only [truthy, presentStr, Bool.not_eq_true']
    constructor
    · intro h
      exact ⟨s, rfl, by simpa using h⟩
    · rintro ⟨t, ht, hne⟩
      cases ht
      simpa using hne

theorem applyWrite_version (st : LedgerState) (w : LedgerWrite) :
    (applyWrite st w).sec.version = st.sec.version + 1 := by
  cases w <;> rfl

theorem applyWrite_log (st : LedgerState) (w : LedgerWrite) :
    ∃ e : AuditEntry, (applyWrite st w).log = st.log ++ [e] := by
  cases w <;> exact ⟨_, rfl⟩

theorem applyWrites_version (st : LedgerState) (ws : List LedgerWrite) :
    (applyWrites st ws).sec.version = st.sec.version + ws.length := by
  induction ws generalizing st with
  | nil => rfl
  | cons w ws ih =>
      simp only [applyWrites, List.foldl_cons, List.length_cons]
      rw [show List.foldl applyWrite (applyWrite st w) ws
            = applyWrites (applyWrite st w) ws from rfl, ih,
          applyWrite_version]
      omega

theorem applyWrites_log (st : LedgerState) (ws : List LedgerWrite) :
    ∃ new : List AuditEntry, new.length = ws.length ∧
      (applyWrites st ws).log = st.log ++ new := by
  induction ws generalizing st with
  | nil => exact ⟨[], rfl, by simp [applyWrites]⟩
  | cons w ws ih =>
      obtain ⟨new, hlen, hlog⟩ := ih (applyWrite st w)
      obtain ⟨e, he⟩ := applyWrite_log st w
      refine ⟨e :: new, by simp [hlen], ?_⟩
      simpa [applyWrites, he] using hlog

theorem upsertRow_keys {α : Type} (merge : α → α → α)
    (rows : List (TableKey × α)) (k : TableKey) (v : α) :
    (upsertRow merge rows k v).map Prod.fst =
      if k ∈ rows.map Prod.fst then rows.map Prod.fst
      else rows.map Prod.fst ++ [k] := by
  induction rows with
  | nil => simp [upsertRow]
  | cons r rest ih =>
      obtain ⟨k0, v0⟩ := r
      by_cases h : k0 = k
      · subst h
        simp [upsertRow]
      · have h2 : ¬ k = k0 := by
          intro hh
          exact h hh.symm
        simp only [upsertRow, if_neg h, List.map_cons, ih, List.mem_cons]
        by_cases hk : k ∈ rest.map Prod.fst
        · simp [hk, h2]
        · simp [hk, h2]

theorem mem_allStmtFields (f : StmtField) : f ∈ allStmtFields := by
  cases f <;> decide

theorem revenueSeries_scenario :
    revenueSeries scenarioHistory = [80000000, 90000000, 100000000] := rfl

theorem yoy_scenario :
    yoyGrowthFactors (revenueSeries scenarioHistory) = [9 / 8, 10 / 9] := by
  rw [revenueSeries_scenario]
  norm_num [yoyGrowthFactors]

theorem geomMean_scenario :
    geomMeanFactor (revenueSeries scenarioHistory) = Real.sqrt (5 / 4) := by
  rw [geomMeanFactor, yoy_scenario, Real.sqrt_eq_rpow]
  norm_num

theorem growthFactor_scenario (cfg : ProjectionConfig) :
    growthFactor cfg scenarioHistory noOverrides = Real.sqrt (5 / 4) := by
  have h2 : 2 ≤ (revenueSeries scenarioHistory).length := by
    rw [revenueSeries_scenario]
    decide
  simp [growthFactor, noOverrides, h2, geomMean_scenario]

theorem sqrt54_lb : (1.1180 : ℝ) ≤ Real.sqrt (5 / 4) := by
  have h0 : (0 : ℝ) ≤ 5 / 4 := by norm_num
  nlinarith [Real.sq_sqrt h0, Real.sqrt_nonneg (5 / 4 : ℝ)]

theorem sqrt54_ub : Real.sqrt (5 / 4) < (1.1181 : ℝ) := by
  have h0 : (0 : ℝ) ≤ 5 / 4 := by norm_num
  nlinarith [Real.sq_sqrt h0, Real.sqrt_nonneg (5 / 4 : ℝ)]

theorem projRev_scenario (cfg : ProjectionConfig) :
    projectedRevenue cfg scenarioHistory noOverrides 1 =
      100000000 * Real.sqrt (5 / 4) := by
  have hl : lastRevenue scenarioHistory = some 100000000 := rfl
  rw [projectedRevenue, growthFactor_scenario, hl, pow_one]
  norm_num

/-! ## Claim theorems -/

/-- C1: every submission operation on the statements and projections
tables — a merge into an existing (company, year) row or an insert of a
fresh row — preserves the invariant that at most one row exists per
(company, year) key. -/
theorem submit_preserves_unique {α : Type} (merge : α → α → α)
    (rows : List (TableKey × α)) (k : TableKey) (v : α)
    (h : uniquePerCompanyYear rows) :
    uniquePerCompanyYear (upsertRow merge rows k v) ∧
    ∀ rows2, insertRow rows k v = some rows2 → uniquePerCompanyYear rows2 := by
  constructor
  · unfold uniquePerCompanyYear at h ⊢
    rw [upsertRow_keys]
    by_cases hk : k ∈ rows.map Prod.fst
    · simpa [hk] using h
    · simp [hk, List.nodup_append, h]
  · intro rows2 h2
    unfold insertRow at h2
    by_cases hk : k ∈ rows.map Prod.fst
    · simp [hk] at h2
    · simp only [hk, if_neg, ite_false] at h2
      cases h2
      unfold uniquePerCompanyYear at h ⊢
      simp [List.nodup_append, h, hk]

/-- Witness for C1 at a concrete one-row statements table. -/
theorem submit_preserves_unique_witness :
    uniquePerCompanyYear
      (upsertRow (fun a _ => a)
        [(⟨1, 2022⟩, emptyStatement 2022)] ⟨1, 2022⟩ (emptyStatement 2022)) :=
  (submit_preserves_unique (fun a _ => a)
    [(⟨1, 2022⟩, emptyStatement 2022)] ⟨1, 2022⟩ (emptyStatement 2022)
    (by simp [uniquePerCompanyYear])).1

/-- C7: starting from any ledger state, N consecutive content-affecting
writes (generate, update or revert), N ≥ 1, leave the section version at
exactly v + N, append exactly N new audit entries to the unchanged
existing log, and the version strictly increases on every single
content-affecting transition. -/
theorem ledger_version_audit (st : LedgerState) (ws : List LedgerWrite)
    (_hN : 1 ≤ ws.length) :
    (applyWrites st ws).sec.version = st.sec.version + ws.length ∧
    (∃ new : List AuditEntry, new.length = ws.length ∧
      (applyWrites st ws).log = st.log ++ new) ∧
    ∀ (s : LedgerState) (w : LedgerWrite),
      s.sec.version < (applyWrite s w).sec.version := by
  refine ⟨applyWrites_version st ws, applyWrites_log st ws, ?_⟩
  intro s w
  rw [applyWrite_version]
  omega

/-- Witness for C7: two writes (a generation then a user edit) on a
fresh section at version 1 end at version 3 with two audit entries. -/
theorem ledger_version_audit_witness :
    (applyWrites ⟨⟨none, none, 1⟩, []⟩
        [.generate "p" "r", .update "c"]).sec.version = 1 + 2 ∧
    (∃ new : List AuditEntry, new.length = 2 ∧
      (applyWrites ⟨⟨none, none, 1⟩, []⟩
        [.generate "p" "r", .update "c"]).log = [] ++ new) ∧
    ∀ (s : LedgerState) (w : LedgerWrite),
      s.sec.version < (applyWrite s w).sec.version :=
  ledger_version_audit ⟨⟨none, none, 1⟩, []⟩
    [.generate "p" "r", .update "c"] (by decide)

/-- C9 (counterexample): a section whose `user_content` is present and
equal to its `ai_content` is still labelled Modified by the editor,
contradicting the claim that Modified requires the contents to differ. -/
theorem modified_badge_claim_false :
    ¬ (showsModifiedBadge sectionUserEqAi = true ↔
        presentStr sectionUserEqAi.user_content ∧
        sectionUserEqAi.user_content ≠ sectionUserEqAi.ai_content) := by
  intro h
  have hb : showsModifiedBadge sectionUserEqAi = true := rfl
  exact (h.mp hb).2 rfl

/-- C9 (amended): the editor displays "Modified" exactly when
`user_content` is present (non-empty), regardless of whether it differs
from `ai_content`, and displays "AI Generated" exactly when `ai_content`
is present and `user_content` is empty. -/
theorem section_badges (s : PMSection) :
    (showsModifiedBadge s = true ↔ presentStr s.user_content) ∧
    (showsAiGeneratedBadge s = true ↔
      presentStr s.ai_content ∧ ¬ presentStr s.user_content) := by
  have hu := truthy_iff_presentStr s.user_content
  have ha := truthy_iff_presentStr s.ai_content
  constructor
  · simpa [showsModifiedBadge, hasUserContent] using hu
  · simp only [showsAiGeneratedBadge, hasAiContent, hasUserContent,
      Bool.and_eq_true, Bool.not_eq_true']
    rw [← hu, ← ha]
    cases hcase : truthy s.user_content <;> simp [hcase]

/-- C10: the statements editor saves year statements sequentially and
independently, aborting at the first failed year: if every year before
position k saves successfully and the year at position k fails, then
exactly the statements before position k are persisted and the failure
is reported for the statement at position k — no rollback of earlier
years. -/
theorem saveStatements_aborts_at_first_failure
    (ok : FinancialStatement → Bool) (stmts : List FinancialStatement)
    (k : ℕ) (hk : k < stmts.length)
    (hbefore : ∀ i (hi : i < k), ok (stmts.get ⟨i, hi.trans hk⟩) = true)
    (hfail : ok (stmts.get ⟨k, hk⟩) = false) :
    (saveStatements ok stmts).1 = stmts.take k ∧
    (saveStatements ok stmts).2 = some (stmts.get ⟨k, hk⟩) := by
  induction stmts generalizing k with
  | nil => exact absurd hk (Nat.not_lt_zero k)
  | cons s rest ih =>
      cases k with
      | zero =>
          have hs : ok s = false := hfail
          simp [saveStatements, hs]
      | succ k =>
          have hs : ok s = true := hbefore 0 (Nat.succ_pos k)
          have hk2 : k < rest.length := Nat.lt_of_succ_lt_succ hk
          have hb2 : ∀ i (hi : i < k), ok (rest.get ⟨i, hi.trans hk2⟩) = true := by
            intro i hi
            exact hbefore (i + 1) (Nat.succ_lt_succ hi)
          have hf2 : ok (rest.get ⟨k, hk2⟩) = false := hfail
          obtain ⟨h1, h2⟩ := ih k hk2 hb2 hf2
          simp [saveStatements, hs, h1, h2, List.take_succ_cons]

/-- Witness for C10: saving [2021, 2022] where the 2022 save fails
persists exactly the 2021 statement and reports the 2022 failure. -/
theorem saveStatements_aborts_witness :
    (saveStatements okOnly2021 [emptyStatement 2021, emptyStatement 2022]).1
        = [emptyStatement 2021, emptyStatement 2022].take 1 ∧
    (saveStatements okOnly2021 [emptyStatement 2021, emptyStatement 2022]).2
        = some ([emptyStatement 2021, emptyStatement 2022].get ⟨1, by decide⟩) :=
  saveStatements_aborts_at_first_failure okOnly2021
    [emptyStatement 2021, emptyStatement 2022] 1 (by decide)
    (fun i hi => by
      have h0 : i = 0 := by omega
      subst h0
      rfl)
    (by decide)

/-- C2: projection generation is deterministic — two runs with identical
history, horizon, overrides (and configuration) produce identical
projection output; the engine is a pure function with no randomness or
hidden state. -/
theorem projections_deterministic (cfg1 cfg2 : ProjectionConfig)
    (h1 h2 : List FinancialStatement) (n1 n2 : ℕ)
    (o1 o2 : AssumptionOverrides)
    (hcfg : cfg1 = cfg2) (hh : h1 = h2) (hn : n1 = n2) (ho : o1 = o2) :
    generateProjections cfg1 h1 n1 o1 = generateProjections cfg2 h2 n2 o2 := by
  subst hcfg
  subst hh
  subst hn
  subst ho
  rfl

/-- Witness for C2: two runs on the scenario history with horizon 2 and
no overrides agree. -/
theorem projections_deterministic_witness :
    generateProjections defaultConfig scenarioHistory 2 noOverrides =
      generateProjections defaultConfig scenarioHistory 2 noOverrides :=
  projections_deterministic defaultConfig defaultConfig
    scenarioHistory scenarioHistory 2 2 noOverrides noOverrides
    rfl rfl rfl rfl

/-- C4: the field-level merge with source precedence manual >
pdf_extracted > scraped: a field set by a strictly higher-precedence
source is never overwritten by a lower-precedence record, fields absent
from the incoming record keep their existing values, and every
overwrite is recorded with the field's previous value and source. -/
theorem merge_respects_precedence (can : CanonicalFields) (r : RawRecord)
    (f : StmtField) :
    (∀ w s0, can f = some (w, s0) → sourceRank r.src < sourceRank s0 →
      mergeStatement can r f = some (w, s0)) ∧
    (r.fields f = none → mergeStatement can r f = can f) ∧
    (∀ v w s0, r.fields f = some v → can f = some (w, s0) →
      sourceRank s0 ≤ sourceRank r.src →
      mergeStatement can r f = some (v, r.src) ∧
      (f, w, s0) ∈ overwriteLog can r) := by
  refine ⟨?_, ?_, ?_⟩
  · intro w s0 hcf hlt
    cases hrf : r.fields f with
    | none => simp [mergeStatement, mergeField, hrf, hcf]
    | some v => simp [mergeStatement, mergeField, hrf, hcf, hlt]
  · intro hrf
    simp [mergeStatement, mergeField, hrf]
  · intro v w s0 hrf hcf hle
    have hnlt : ¬ sourceRank r.src < sourceRank s0 := by omega
    constructor
    · simp [mergeStatement, mergeField, hrf, hcf, hnlt]
    · rw [overwriteLog, List.mem_filterMap]
      refine ⟨f, mem_allStmtFields f, ?_⟩
      simp [hrf, hcf, hnlt]

/-- Witness for C4: the spec scenario — a manual submission for a year
with a prior scraped record.  The manual revenue wins and the overwrite
of the scraped revenue value 100 is recorded; the equity field, absent
from the manual record, keeps the scraped value. -/
theorem merge_respects_precedence_witness :
    (mergeStatement exCanonical exManualRecord .revenue = some (120, .manual) ∧
      (StmtField.revenue, (100 : ℚ), StmtSource.scraped) ∈
        overwriteLog exCanonical exManualRecord) ∧
    mergeStatement exCanonical exManualRecord .equity = exCanonical .equity :=
  ⟨(merge_respects_precedence exCanonical exManualRecord .revenue).2.2
      120 100 .scraped rfl rfl (by decide),
   (merge_respects_precedence exCanonical exManualRecord .equity).2.1 rfl⟩

/-- C5: the normalizer fills a missing `total_assets` with
`current_assets + fixed_assets` when both parts are present, and never
overwrites an explicitly supplied `total_assets`. -/
theorem normalizer_fills_total_assets (s : FinancialStatement) :
    (∀ a b, s.total_assets = none → s.current_assets = some a →
      s.fixed_assets = some b →
      (fillDerived s).total_assets = some (a + b)) ∧
    ∀ t, s.total_assets = some t → (fillDerived s).total_assets = some t := by
  constructor
  · intro a b ht hc hf
    simp [fillDerived, deriveFromParts, ht, hc, hf]
  · intro t ht
    simp [fillDerived, deriveFromParts, ht]

/-- Witness for C5: parts 60M + 40M fill a missing total as 100M, and an
explicit total of 7 survives normalization untouched. -/
theorem normalizer_fills_total_assets_witness :
    (fillDerived exPartsOnly).total_assets = some (60000000 + 40000000) ∧
    (fillDerived exExplicitTotal).total_assets = some 7 :=
  ⟨(normalizer_fills_total_assets exPartsOnly).1 60000000 40000000 rfl rfl rfl,
   (normalizer_fills_total_assets exExplicitTotal).2 7 rfl⟩

/-- C6: ratio calculation is total — a ratio whose denominator is zero,
missing, or invalid (non-positive equity for ROE) yields the explicit
undefined marker `none`, never a value and never an error. -/
theorem ratios_undefined_on_invalid (prev : Option FinancialStatement)
    (s : FinancialStatement) :
    (s.revenue = some 0 ∨ s.revenue = none →
      (computeRatios prev s).gross_margin = none ∧
      (computeRatios prev s).ebitda_margin = none ∧
      (computeRatios prev s).net_margin = none) ∧
    (s.current_liabilities = some 0 ∨ s.current_liabilities = none →
      (computeRatios prev s).current_ratio = none) ∧
    (s.total_assets = some 0 ∨ s.total_assets = none →
      (computeRatios prev s).equity_ratio = none ∧
      (computeRatios prev s).roa = none) ∧
    (s.equity = some 0 ∨ s.equity = none →
      (computeRatios prev s).debt_to_equity = none) ∧
    (∀ e, s.equity = some e → e ≤ 0 →
      (computeRatios prev s).roe = none) ∧
    (s.equity = none → (computeRatios prev s).roe = none) ∧
    ∀ p, prev = some p → p.revenue = some 0 ∨ p.revenue = none →
      (computeRatios prev s).revenue_growth = none := by
  refine ⟨?_, ?_, ?_, ?_, ?_, ?_, ?_⟩
  · rintro (h | h) <;>
      cases hg : s.gross_profit <;> cases he : s.ebitda <;>
      cases hn : s.net_profit <;>
      simp [computeRatios, safeDiv, h, hg, he, hn]
  · rintro (h | h) <;>
      cases hc : s.current_assets <;> simp [computeRatios, safeDiv, h, hc]
  · rintro (h | h) <;>
      cases he : s.equity <;> cases hn : s.net_profit <;>
      simp [computeRatios, safeDiv, h, he, hn]
  · rintro (h | h) <;>
      cases hl : s.total_liabilities <;> simp [computeRatios, safeDiv, h, hl]
  · intro e he hle
    cases hnp : s.net_profit <;> simp [computeRatios, he, hnp, hle]
  · intro he
    cases hnp : s.net_profit <;> simp [computeRatios, he, hnp]
  · rintro p hp (h | h) <;>
      cases hr : s.revenue <;> simp [computeRatios, hp, h, hr]

/-- Witness for C6: with zero revenue and negative equity, the gross
margin and the ROE are both the undefined marker. -/
theorem ratios_undefined_on_invalid_witness :
    (computeRatios none exBadDenominators).gross_margin = none ∧
    (computeRatios none exBadDenominators).roe = none :=
  ⟨((ratios_undefined_on_invalid none exBadDenominators).1 (Or.inl rfl)).1,
   (ratios_undefined_on_invalid none exBadDenominators).2.2.2.2.1
      (-5) rfl (by norm_num)⟩

/-- C3: with at least two historical revenue years and no revenue-growth
override, the engine's base growth factor is the geometric mean of the
year-over-year revenue growth factors, and projected revenue for
horizon year k is the last historical revenue times that factor to the
k-th power; on the spec scenario history (80M in 2021, 90M in 2022,
100M in 2023, flat margins) the factor is sqrt(100/80), which lies in
[1.1180, 1.1181), and projected 2024 revenue lies in [111.80M,
111.81M). -/
theorem projection_growth_geometric (cfg : ProjectionConfig)
    (hist : List FinancialStatement) (ov : AssumptionOverrides) (k : ℕ)
    (h2 : 2 ≤ (revenueSeries hist).length) (hov : ov.revenue_growth = none) :
    growthFactor cfg hist ov = geomMeanFactor (revenueSeries hist) ∧
    projectedRevenue cfg hist ov k =
      (((lastRevenue hist).getD 0 : ℚ) : ℝ) * growthFactor cfg hist ov ^ k ∧
    growthFactor cfg scenarioHistory noOverrides = Real.sqrt (100 / 80) ∧
    (1.1180 : ℝ) ≤ growthFactor cfg scenarioHistory noOverrides ∧
    growthFactor cfg scenarioHistory noOverrides < 1.1181 ∧
    (111800000 : ℝ) ≤ projectedRevenue cfg scenarioHistory noOverrides 1 ∧
    projectedRevenue cfg scenarioHistory noOverrides 1 < 111810000 := by
  have hg := growthFactor_scenario cfg
  have hr := projRev_scenario cfg
  refine ⟨?_, rfl, ?_, ?_, ?_, ?_, ?_⟩
  · simp [growthFactor, hov, h2]
  · rw [hg]
    norm_num
  · rw [hg]
    exact sqrt54_lb
  · rw [hg]
    exact sqrt54_ub
  · rw [hr]
    linarith [sqrt54_lb]
  · rw [hr]
    linarith [sqrt54_ub]

/-- Witness for C3: the scenario conjuncts of the claim theorem at the
concrete configuration. -/
theorem projection_growth_geometric_witness :
    growthFactor defaultConfig scenarioHistory noOverrides =
      Real.sqrt (100 / 80) ∧
    (1.1180 : ℝ) ≤ growthFactor defaultConfig scenarioHistory noOverrides ∧
    growthFactor defaultConfig scenarioHistory noOverrides < 1.1181 ∧
    (111800000 : ℝ) ≤
      projectedRevenue defaultConfig scenarioHistory noOverrides 1 ∧
    projectedRevenue defaultConfig scenarioHistory noOverrides 1 < 111810000 :=
  (projection_growth_geometric defaultConfig scenarioHistory noOverrides 1
    (by decide) rfl).2.2

/-- C8: when the first narrative response fails validation the composer
makes exactly one retry (two generation attempts in total); if the
retry also fails, it persists the retry's individually valid fields
together with `generation_incomplete = true` instead of discarding the
attempt; and in particular a response with no recommendations always
fails validation. -/
theorem composer_retry_and_degrade (r1 r2 : NarrativeResponse)
    (h1 : validResponse r1 = false) :
    (composeAnalysis r1 r2).attempts = 2 ∧
    (validResponse r2 = false →
      (composeAnalysis r1 r2).generation_incomplete = true ∧
      (composeAnalysis r1 r2).recommendations = r2.recommendations ∧
      (truthy r2.summary = true →
        (composeAnalysis r1 r2).summary = r2.summary) ∧
      ∀ x, r2.overall_risk = some x → validRisk x = true →
        (composeAnalysis r1 r2).overall_risk = some x) ∧
    ∀ r : NarrativeResponse, r.recommendations = [] →
      validResponse r = false := by
  refine ⟨?_, ?_, ?_⟩
  · cases hv2 : validResponse r2 <;>
      simp [composeAnalysis, h1, hv2, keepValidFields]
  · intro hv2
    refine ⟨?_, ?_, ?_, ?_⟩
    · simp [composeAnalysis, h1, hv2, keepValidFields]
    · simp [composeAnalysis, h1, hv2, keepValidFields]
    · intro hs
      simp [composeAnalysis, h1, hv2, keepValidFields, hs]
    · intro x hx hvx
      simp [composeAnalysis, h1, hv2, keepValidFields, hx, hvx]
  · intro r hr
    simp [validResponse, hr]

/-- Witness for C8: both responses miss their recommendations; the
composer makes two attempts, persists with the incomplete flag and
keeps the retry's valid summary. -/
theorem composer_retry_and_degrade_witness :
    (composeAnalysis exResponse1 exResponse2).attempts = 2 ∧
    (composeAnalysis exResponse1 exResponse2).generation_incomplete = true ∧
    (composeAnalysis exResponse1 exResponse2).summary = exResponse2.summary :=
  ⟨(composer_retry_and_degrade exResponse1 exResponse2 rfl).1,
   ((composer_retry_and_degrade exResponse1 exResponse2 rfl).2.1 rfl).1,
   ((composer_retry_and_degrade exResponse1 exResponse2 rfl).2.1 rfl).2.2.1 rfl⟩

end CreditPM
